import Mathlib

/-!
Verification development for the `truth_finder_ai-backend` message
orchestration subsystem.

The Python source is shallowly embedded: pure helpers become Lean
functions, HTTP collaborators (the Gemini generation endpoint, the
Twitter search tool, the Supabase REST store) become explicit oracle
parameters or an explicit `Store` state, and Python exceptions become
`Except` values threaded through the control flow.  External calls are
additionally recorded in an event trace so that theorems can speak
about which collaborators a request touched.

Embedded files:
  * `app/routes/fact_check.py` — `sanitize_input`, `chat_agent`
  * `app/services/multi_agent_orchestrator.py` — keyword tables,
    `news_event_agent`, `call_gemini_api`, `multi_agent_orchestrator`
  * `app/services/supabase_chat.py` — `save_chat_message`,
    `get_chat_history`

The Knowledge Lookup Client (`app/services/tools.py`) is not part of
the snapshot; it is treated as an opaque collaborator oracle.
-/

/-- Python's `sub in s` substring test. -/
def containsSub (s sub : String) : Bool := decide (sub.data <:+: s.data)

/-- Python's `sep.join(xs)`. -/
def joinSep (sep : String) : List String → String
  | [] => ""
  | [x] => x
  | x :: y :: ys => x ++ sep ++ joinSep sep (y :: ys)

/-- Python's `str.capitalize()`: first character upper-cased, the rest
lower-cased. -/
def pyCapitalize (s : String) : String :=
  match s.data with
  | [] => ""
  | c :: cs => ⟨c.toUpper :: cs.map Char.toLower⟩

/-- Helper for `pyTitle`: upper-case every letter that does not follow a
letter, lower-case the others. -/
def titleAux : List Char → Bool → List Char
  | [], _ => []
  | c :: cs, prevAlpha =>
    if c.isAlpha then
      (if prevAlpha then c.toLower else c.toUpper) :: titleAux cs true
    else
      c :: titleAux cs false

/-- Python's `str.title()`. -/
def pyTitle (s : String) : String := ⟨titleAux s.data false⟩

/-- Python's `str.lower()` (character-wise, so that it evaluates inside
the kernel). -/
def pyLower (s : String) : String := ⟨s.data.map Char.toLower⟩

/-- Python's `str.strip()`: drop leading and trailing whitespace. -/
def pyStrip (s : String) : String :=
  ⟨((s.data.dropWhile Char.isWhitespace).reverse.dropWhile
      Char.isWhitespace).reverse⟩

/-- Python's `l[-n:]` slice: the last `n` elements. -/
def takeLast (n : Nat) (l : List α) : List α := l.drop (l.length - n)

/-- `fact_check.py` / `sanitize_input`: drop the characters `<`, `>`,
`"` and truncate to 2000 characters (empty input is returned as is). -/
def sanitize_input (text : String) : String :=
  if text = "" then text
  else ⟨(text.data.filter (fun c =>
      !(c == '<' || c == '>' || c == '\x22'))).take 2000⟩

/-- Minimal JSON value model for the generation endpoint's response
body. -/
inductive Json where
  | null : Json
  | str : String → Json
  | num : Int → Json
  | arr : List Json → Json
  | obj : List (String × Json) → Json

/-- Python `d.get(key, default)`: succeeds only on a dict receiver
(attribute access on any other value raises). -/
def Json.getD : Json → String → Json → Except Unit Json
  | .obj fields, k, d =>
      .ok (((fields.find? (fun p => p.1 == k)).map Prod.snd).getD d)
  | _, _, _ => .error ()

/-- Python `x[0]` as used on the decoded body: succeeds only on a
non-empty list (anything else raises an IndexError/TypeError, which the
caller's bare `except` turns into the same fallback). -/
def Json.index0 : Json → Except Unit Json
  | .arr (x :: _) => .ok x
  | _ => .error ()

/-- The text-extraction expression of `call_gemini_api`:
`data.get("candidates", [{}])[0].get("content", {}).get("parts", [{}])[0].get("text", "").strip()`.
-/
def extractText (data : Json) : Except Unit String := do
  let cands ← data.getD "candidates" (.arr [.obj []])
  let c0 ← cands.index0
  let content ← c0.getD "content" (.obj [])
  let parts ← content.getD "parts" (.arr [.obj []])
  let p0 ← parts.index0
  let t ← p0.getD "text" (.str "")
  match t with
  | .str s => .ok (pyStrip s)
  | _ => .error ()

/-- Outcome of the underlying `httpx` POST in `call_gemini_api`:
a raised transport error, a raised timeout, or a response with a status
code and a decoded body (`none` when `res.json()` raises). -/
inductive GeminiUpstream where
  | raised : GeminiUpstream
  | timedOut : GeminiUpstream
  | response : Nat → Option Json → GeminiUpstream

/-- The literal string returned by `call_gemini_api`'s bare `except`
branch. -/
def SENSITIVE_FALLBACK : String :=
  "Sorry, this topic seems too sensitive for the AI to respond to. Please try rephrasing."

/-- The literal string returned by `call_gemini_api` when the extracted
text is empty (`text or "Sorry, I couldn't process this request."`). -/
def EMPTY_TEXT_FALLBACK : String := "Sorry, I couldn\x27t process this request."

/-- `multi_agent_orchestrator.py` / `call_gemini_api`, as a function of
the upstream HTTP outcome.  `res.raise_for_status()` raises exactly for
status codes `≥ 400`; every raised exception lands in the bare
`except`, so the function is total and never propagates an error. -/
def call_gemini_api (upstream : GeminiUpstream) : String :=
  match upstream with
  | .raised => SENSITIVE_FALLBACK
  | .timedOut => SENSITIVE_FALLBACK
  | .response status body =>
    if 400 ≤ status then SENSITIVE_FALLBACK
    else
      match body with
      | none => SENSITIVE_FALLBACK
      | some data =>
        match extractText data with
        | .error _ => SENSITIVE_FALLBACK
        | .ok text => if text = "" then EMPTY_TEXT_FALLBACK else text

/-- One post returned by the Knowledge Lookup Client
(`search_twitter`). -/
structure Tweet where
  author_username : String
  text : String
deriving DecidableEq

/-- The tweet-context block of `news_event_agent`'s prompt. -/
def twitterContext (tweets : List Tweet) : String :=
  if tweets.isEmpty then "No relevant tweets found."
  else joinSep "\n\n" (tweets.map (fun t =>
    "Tweet by @" ++ t.author_username ++ ": " ++ t.text))

/-- The prompt composed by `news_event_agent`. -/
def newsEventPrompt (user_message : String) (tweets : List Tweet) : String :=
  "You are TruthFinder, an AI assistant that analyzes news events using both news and social media data. "
    ++ "Below is a user question about a recent event, and some recent tweets about the topic. "
    ++ "Use both sources to provide a comprehensive, up-to-date answer.\n\n"
    ++ "User question: " ++ user_message ++ "\n\n"
    ++ "Recent tweets:\n" ++ twitterContext tweets ++ "\n\n"
    ++ "Answer:"

/-- `multi_agent_orchestrator.py` / `news_event_agent`.  The lookup
client (`search_twitter`, absent from the snapshot; per the design it
never raises and returns a list of posts) and the generation upstream
are oracle parameters. -/
def news_event_agent (search : String → Nat → List Tweet)
    (gemini : String → GeminiUpstream) (user_message : String) : String :=
  let keywords := user_message
  let tweets := search keywords 10
  call_gemini_api (gemini (newsEventPrompt user_message tweets))

/-- `GREETING_KEYWORDS` from `multi_agent_orchestrator.py`. -/
def GREETING_KEYWORDS : List String :=
  ["hello", "hi", "hey", "salaam", "assalam", "greetings"]

/-- `NEWS_EVENT_KEYWORDS` from `multi_agent_orchestrator.py`. -/
def NEWS_EVENT_KEYWORDS : List String :=
  ["news", "breaking", "happened", "event", "incident", "attack", "war",
   "earthquake", "election", "trending", "protest", "riot", "conflict",
   "explosion", "disaster", "crisis", "shooting", "flood", "storm", "fire",
   "accident", "strike", "emergency"]

/-- `PERSONAL_DATA_KEYWORDS` from `multi_agent_orchestrator.py`. -/
def PERSONAL_DATA_KEYWORDS : List String :=
  ["my name", "i am", "i\x27m", "my age", "my birthday", "my location",
   "i live", "i work", "my job", "my hobby", "my favorite", "i like",
   "i love", "remember", "what did i tell you", "what\x27s my",
   "what is my", "do you remember", "recall", "my information"]

/-- The inline identity-query keyword list of the orchestrator. -/
def IDENTITY_KEYWORDS : List String := ["who are you", "about you", "yourself"]

/-- Inline keyword list of the `summarize` branch. -/
def SUMMARIZE_KEYWORDS : List String :=
  ["summarize", "summary", "short version", "tl;dr"]

/-- Inline keyword list of the fact-check branch. -/
def FACTCHECK_KEYWORDS : List String :=
  ["fact check", "is it true", "verify", "real or fake"]

/-- Inline keyword list of the sentiment/bias branch. -/
def BIAS_KEYWORDS : List String := ["bias", "political bias", "tone", "sentiment"]

/-- Inline keyword list of the keyword-extraction branch. -/
def EXTRACT_KEYWORDS : List String := ["keywords", "extract", "entities"]

/-- Inline keyword list of the statistic-verification branch. -/
def STAT_KEYWORDS : List String := ["statistic", "number", "verify stat"]

/-- Inline keyword list of the report branch. -/
def REPORT_KEYWORDS : List String := ["report", "generate report", "final report"]

/-- Inline keyword list of the social-lookup branch. -/
def SOCIAL_KEYWORDS : List String := ["twitter", "tweet", "social media"]

/-- Python's `any(k in lower_msg for k in ks)`. -/
def anyKeyword (ks : List String) (lower_msg : String) : Bool :=
  ks.any (fun k => containsSub lower_msg k)

/-- The closed set of intent categories of the router (spec §3). -/
inductive Intent where
  | greeting | identityQuery | liveEvent | summarize | factCheck
  | sentimentBias | keywordExtraction | statisticVerification | report
  | socialLookup | personalDataQuery | general
deriving DecidableEq, Repr

/-- The intent classification implicit in `multi_agent_orchestrator`'s
`if`/`elif` chain (lines 125–173), extracted as a pure function: each
branch guard in source order, with the final `else` as `general`. -/
def classify (message : String) : Intent :=
  let lower_msg := pyLower message
  if anyKeyword GREETING_KEYWORDS lower_msg then .greeting
  else if anyKeyword IDENTITY_KEYWORDS lower_msg then .identityQuery
  else if anyKeyword NEWS_EVENT_KEYWORDS lower_msg then .liveEvent
  else if anyKeyword SUMMARIZE_KEYWORDS lower_msg then .summarize
  else if anyKeyword FACTCHECK_KEYWORDS lower_msg then .factCheck
  else if anyKeyword BIAS_KEYWORDS lower_msg then .sentimentBias
  else if anyKeyword EXTRACT_KEYWORDS lower_msg then .keywordExtraction
  else if anyKeyword STAT_KEYWORDS lower_msg then .statisticVerification
  else if anyKeyword REPORT_KEYWORDS lower_msg then .report
  else if anyKeyword SOCIAL_KEYWORDS lower_msg then .socialLookup
  else if anyKeyword PERSONAL_DATA_KEYWORDS lower_msg then .personalDataQuery
  else .general

/-- Keyword table per category, for the spec-side router. -/
def intentKeywords : Intent → List String
  | .greeting => GREETING_KEYWORDS
  | .identityQuery => IDENTITY_KEYWORDS
  | .liveEvent => NEWS_EVENT_KEYWORDS
  | .summarize => SUMMARIZE_KEYWORDS
  | .factCheck => FACTCHECK_KEYWORDS
  | .sentimentBias => BIAS_KEYWORDS
  | .keywordExtraction => EXTRACT_KEYWORDS
  | .statisticVerification => STAT_KEYWORDS
  | .report => REPORT_KEYWORDS
  | .socialLookup => SOCIAL_KEYWORDS
  | .personalDataQuery => PERSONAL_DATA_KEYWORDS
  | .general => []

/-- The priority order stated by the spec (§4.1), `general` excluded as
the default. -/
def PRIORITY_ORDER : List Intent :=
  [.greeting, .identityQuery, .liveEvent, .summarize, .factCheck,
   .sentimentBias, .keywordExtraction, .statisticVerification, .report,
   .socialLookup, .personalDataQuery]

/-- Modelled from the spec: the router as the spec words it — the first
category in `PRIORITY_ORDER` whose keyword set matches, with `general`
as the exhaustive default.  Used only to be compared against
`classify`. -/
def classify_spec (message : String) : Intent :=
  (PRIORITY_ORDER.find? (fun c =>
    anyKeyword (intentKeywords c) (pyLower message))).getD .general

/-- One row of the Supabase `chat_history` table.  Schema per
`check_tables.py`: `id, user_id, role, content, created_at`; the
`created_at` timestamp is assigned by the store. -/
structure Row where
  user_id : String
  role : String
  content : String
  created_at : Nat
deriving DecidableEq, Repr

/-- The Supabase store: its rows plus flags saying whether POSTs
(inserts) and GETs (selects) currently succeed, and the clock used for
`created_at DEFAULT NOW()`. -/
structure Store where
  rows : List Row
  writesOk : Bool
  readsOk : Bool
  clock : Nat
deriving DecidableEq, Repr

/-- External calls made while handling one request. -/
inductive Event where
  | storeAppend : String → String → String → Bool → Event
  | storeFetch : String → Nat → Event
  | geminiCall : String → Event
  | twitterSearch : String → Nat → Event
  | toolCall : String → List String → Event
deriving DecidableEq, Repr

/-- `supabase_chat.py` / `save_chat_message`: POST one row; `True` on
success, and any raised error is swallowed into `False`. -/
def save_chat_message (store : Store) (user_id role message : String) :
    Bool × Store :=
  if store.writesOk then
    (true,
     { store with
        rows := store.rows ++ [⟨user_id, role, message, store.clock⟩],
        clock := store.clock + 1 })
  else (false, store)

/-- Insert a row into a list kept in descending `created_at` order. -/
def insertDesc (r : Row) : List Row → List Row
  | [] => [r]
  | x :: xs =>
    if x.created_at ≤ r.created_at then r :: x :: xs
    else x :: insertDesc r xs

/-- Sort rows by `created_at` descending — the effect of the
`order=created_at.desc` query parameter at the store. -/
def sortDesc : List Row → List Row
  | [] => []
  | x :: xs => insertDesc x (sortDesc xs)

/-- The Supabase GET consumed by `get_chat_history`: filter by
`user_id`, order by `created_at` descending, apply `limit`; a store
failure is a raised transport/HTTP error. -/
def supabase_select (store : Store) (user_id : String) (limit : Nat) :
    Except Unit (List Row) :=
  if store.readsOk then
    .ok ((sortDesc (store.rows.filter (fun r => r.user_id == user_id))).take limit)
  else .error ()

/-- `supabase_chat.py` / `get_chat_history`: on success reverse the
newest-first page into chronological order (`data[::-1]`); any raised
error is swallowed into `[]`. -/
def get_chat_history (store : Store) (user_id : String) (limit : Nat := 50) :
    List Row :=
  match supabase_select store user_id limit with
  | .ok data => data.reverse
  | .error _ => []

/-- Python-level exceptions appearing in the embedded request flow. -/
inductive PyError where
  | httpException : Nat → String → PyError
  | keyError : PyError
  | toolError : PyError
deriving DecidableEq, Repr

/-- A history row as the JSON object the REST store returns it as. -/
def Row.toDict (r : Row) : List (String × String) :=
  [("id", toString r.created_at), ("user_id", r.user_id), ("role", r.role),
   ("content", r.content), ("created_at", toString r.created_at)]

/-- Python `d[key]` on a decoded row: raises `KeyError` when the key is
absent. -/
def dictGet (d : List (String × String)) (k : String) : Except PyError String :=
  match d.find? (fun p => p.1 == k) with
  | some p => .ok p.2
  | none => .error .keyError

/-- The memory-folding comprehension of `multi_agent_orchestrator`
(line 122): `"\n".join([f"{m['role'].capitalize()}: {m['message']}" for m in memory])`.
Note it reads the key `message`, which the store rows do not have. -/
def memoryFold (memory : List Row) : Except PyError String := do
  let lines ← memory.mapM (fun m => do
    let role ← dictGet m.toDict "role"
    let msg ← dictGet m.toDict "message"
    pure (pyCapitalize role ++ ": " ++ msg))
  pure (joinSep "\n" lines)

/-- The external collaborators of the orchestrator: the generation
upstream, the Twitter lookup (never raises, per the tool design), and
the remaining tools of `TRUTHFINDER_TOOLS` (`tools.py` is absent from
the snapshot; a tool call is opaque and may raise, `none`). -/
structure Collab where
  gemini : String → GeminiUpstream
  twitter : String → Nat → List Tweet
  tool : String → List String → Option String

/-- Canned reply of the orchestrator's greeting branch. -/
def GREETING_REPLY : String :=
  "Hello! 👋 I\x27m TruthFinder, your friendly AI assistant! I can help you with news analysis, fact-checking, general questions, or just chat about anything you\x27d like. What\x27s on your mind today?"

/-- Canned reply of the orchestrator's identity branch. -/
def ORCH_IDENTITY_REPLY : String :=
  "I\x27m TruthFinder, your friendly AI assistant created by Hamza Ahmed! 🤖✨ "
    ++ "I specialize in news analysis, fact-checking, and misinformation detection, but I\x27m also here for general conversations and to help with personal information. "
    ++ "I can remember details you share with me and help you with news, current events, or just chat about anything you\x27d like. "
    ++ "Think of me as your knowledgeable friend who\x27s great at analyzing information and having engaging conversations!"

/-- Prompt of the personal-data branch. -/
def personalDataPrompt (user_message : String) : String :=
  "You are TruthFinder, a friendly AI assistant. The user is asking about personal information. "
    ++ "Use the conversation history to provide accurate information about what they\x27ve shared with you. "
    ++ "If they\x27re sharing new personal information, acknowledge it warmly. "
    ++ "If they\x27re asking about their personal data, provide it naturally from the conversation history. "
    ++ "Be conversational and helpful. Never say you don\x27t have access to their information if it\x27s in the conversation.\n"
    ++ "User: " ++ user_message ++ "\nAssistant:"

/-- Prompt of the final `else` (general conversation) branch. -/
def generalPrompt (user_message : String) : String :=
  "You are TruthFinder, a friendly and helpful AI assistant. You can discuss news, current events, personal topics, "
    ++ "and general questions. You have access to the user\x27s chat history and personal information they\x27ve shared. "
    ++ "If they ask about their personal data, provide it naturally from the conversation history. "
    ++ "Be conversational, helpful, and engaging. You can analyze news, fact-check information, and have general conversations. "
    ++ "Never say you don\x27t have access to personal data if it\x27s in the conversation history.\n"
    ++ "User: " ++ user_message ++ "\nAssistant:"

/-- The `if`/`elif` dispatch of `multi_agent_orchestrator` (lines
125–173), after the memory folding: `lower_msg` is the lower-cased
message as received, `user_message` the possibly history-prefixed one.
Tool branches go through `main_agent.handle`, i.e. the named tool;
a raised tool exception propagates. -/
def orchestratorDispatch (collab : Collab) (lower_msg user_message : String) :
    Except PyError String × List Event :=
  if anyKeyword GREETING_KEYWORDS lower_msg then
    (.ok GREETING_REPLY, [])
  else if anyKeyword IDENTITY_KEYWORDS lower_msg then
    (.ok ORCH_IDENTITY_REPLY, [])
  else if anyKeyword NEWS_EVENT_KEYWORDS lower_msg then
    let tweets := collab.twitter user_message 10
    let prompt := newsEventPrompt user_message tweets
    (.ok (call_gemini_api (collab.gemini prompt)),
     [.twitterSearch user_message 10, .geminiCall prompt])
  else if anyKeyword SUMMARIZE_KEYWORDS lower_msg then
    (match collab.tool "summarize_news" [user_message] with
     | none => .error .toolError
     | some r => .ok r, [.toolCall "summarize_news" [user_message]])
  else if anyKeyword FACTCHECK_KEYWORDS lower_msg then
    (match collab.tool "fact_checker" [user_message] with
     | none => .error .toolError
     | some r => .ok r, [.toolCall "fact_checker" [user_message]])
  else if anyKeyword BIAS_KEYWORDS lower_msg then
    (match collab.tool "analyze_sentiment" [user_message] with
     | none => .error .toolError
     | some r => .ok r, [.toolCall "analyze_sentiment" [user_message]])
  else if anyKeyword EXTRACT_KEYWORDS lower_msg then
    (match collab.tool "extract_keywords" [user_message] with
     | none => .error .toolError
     | some r => .ok r, [.toolCall "extract_keywords" [user_message]])
  else if anyKeyword STAT_KEYWORDS lower_msg then
    (match collab.tool "verify_stat" [user_message] with
     | none => .error .toolError
     | some r => .ok r, [.toolCall "verify_stat" [user_message]])
  else if anyKeyword REPORT_KEYWORDS lower_msg then
    match collab.tool "summarize_news" [user_message] with
    | none => (.error .toolError, [.toolCall "summarize_news" [user_message]])
    | some summary =>
      match collab.tool "fact_checker" [user_message] with
      | none => (.error .toolError,
          [.toolCall "summarize_news" [user_message],
           .toolCall "fact_checker" [user_message]])
      | some verdict =>
        match collab.tool "extract_keywords" [user_message] with
        | none => (.error .toolError,
            [.toolCall "summarize_news" [user_message],
             .toolCall "fact_checker" [user_message],
             .toolCall "extract_keywords" [user_message]])
        | some keywords =>
          (match collab.tool "generate_report" [summary, verdict, keywords] with
           | none => .error .toolError
           | some r => .ok r,
           [.toolCall "summarize_news" [user_message],
            .toolCall "fact_checker" [user_message],
            .toolCall "extract_keywords" [user_message],
            .toolCall "generate_report" [summary, verdict, keywords]])
  else if anyKeyword SOCIAL_KEYWORDS lower_msg then
    (match collab.tool "search_twitter" [user_message] with
     | none => .error .toolError
     | some r => .ok r, [.toolCall "search_twitter" [user_message]])
  else if anyKeyword PERSONAL_DATA_KEYWORDS lower_msg then
    let prompt := personalDataPrompt user_message
    (.ok (call_gemini_api (collab.gemini prompt)), [.geminiCall prompt])
  else
    let prompt := generalPrompt user_message
    (.ok (call_gemini_api (collab.gemini prompt)), [.geminiCall prompt])

/-- Python truthiness of the `user_id` argument (`if user_id:`). -/
def truthyOpt : Option String → Bool
  | some s => !(s == "")
  | none => false

/-- `multi_agent_orchestrator.py` / `multi_agent_orchestrator` (lines
116–173): `lower_msg` is computed from the incoming message *before*
the history prefix is added; when `user_id` is truthy and the fetched
memory is non-empty, the memory fold runs (and raises `KeyError`,
because rows carry `content`, not `message`) before any dispatch. -/
def multi_agent_orchestrator (collab : Collab) (store : Store)
    (user_message : String) (user_id : Option String) :
    Except PyError String × List Event :=
  let lower_msg := pyLower user_message
  if truthyOpt user_id then
    let uid := user_id.getD ""
    let memory := get_chat_history store uid 50
    let ev0 : List Event := [.storeFetch uid 50]
    if memory.isEmpty then
      let d := orchestratorDispatch collab lower_msg user_message
      (d.1, ev0 ++ d.2)
    else
      match memoryFold memory with
      | .error e => (.error e, ev0)
      | .ok memory_text =>
        let um := "Here is chat history:\n" ++ memory_text
          ++ "\n\nNow respond to this:\n" ++ user_message
        let d := orchestratorDispatch collab lower_msg um
        (d.1, ev0 ++ d.2)
  else
    orchestratorDispatch collab lower_msg user_message

/-- `fact_check.py` / `IDENTITY_RESPONSE`. -/
def IDENTITY_RESPONSE : String :=
  "I am TruthFinder — your friendly AI assistant! 🤖✨ "
    ++ "I specialize in news analysis, fact-checking, and misinformation detection, but I\x27m also here for general conversations and to help with personal information. "
    ++ "I can remember details you share with me and help you with news, current events, or just chat about anything you\x27d like. "
    ++ "Think of me as your knowledgeable friend who\x27s great at analyzing information and having engaging conversations!"

/-- The request body of `POST /agent/chat`; `none` models an absent
key. -/
structure RequestBody where
  message : Option String
  session_id : Option String
  user_id : Option String

/-- The JSON object returned by `chat_agent` (the constant
`supabase_working: True` debug field is omitted; `history_count` is
`len(updated_history)`). -/
structure ChatResponse where
  response : String
  session_id : String
  history : List Row
  history_count : Nat
deriving DecidableEq, Repr

/-- What the caller of the endpoint observes. -/
inductive ChatResult where
  | ok : ChatResponse → ChatResult
  | httpError : Nat → String → ChatResult
deriving DecidableEq, Repr

/-- Python's `x or default` on an optional string (both `None` and `""`
are falsy). -/
def pyOr (v : Option String) (d : String) : String :=
  match v with
  | some s => if s = "" then d else s
  | none => d

/-- The history-context loop of `chat_agent` (lines 52–56):
`history_context += f"{role.title()}: {text}\n"`, reading `msg['role']`
and `msg['message']` — the latter key does not exist on store rows, so
the loop raises `KeyError` on any non-empty history page. -/
def historyContextFold : List Row → Except PyError String
  | [] => .ok ""
  | m :: ms => do
    let role ← dictGet m.toDict "role"
    let text ← dictGet m.toDict "message"
    let rest ← historyContextFold ms
    pure (pyTitle role ++ ": " ++ text ++ "\n" ++ rest)

/-- Tail of `chat_agent`'s happy path (lines 71–86): save the agent
reply, re-fetch the history, and build the response object. -/
def afterReply (store : Store) (evs : List Event)
    (session_id user_id agent_reply : String) :
    Except PyError ChatResponse × Store × List Event :=
  let sres := save_chat_message store user_id "agent" agent_reply
  let updated_history := get_chat_history sres.2 user_id 50
  (.ok { response := agent_reply, session_id := session_id,
         history := updated_history,
         history_count := updated_history.length },
   sres.2,
   evs ++ [.storeAppend user_id "agent" agent_reply sres.1, .storeFetch user_id 50])

/-- The `try` block of `fact_check.py` / `chat_agent` (lines 36–86).
`freshUuid` stands for `str(uuid.uuid4())`. -/
def chat_agent_body (collab : Collab) (store : Store) (body : RequestBody)
    (freshUuid : String) : Except PyError ChatResponse × Store × List Event :=
  let message := sanitize_input (body.message.getD "")
  let session_id := pyOr body.session_id freshUuid
  let user_id := pyOr body.user_id session_id
  if message = "" then
    (.error (.httpException 400 "Message cannot be empty."), store, [])
  else
    let sres := save_chat_message store user_id "user" message
    let store1 := sres.2
    let ev2 : List Event :=
      [.storeAppend user_id "user" message sres.1, .storeFetch user_id 50]
    let history := get_chat_history store1 user_id 50
    match historyContextFold (takeLast 15 history) with
    | .error e => (.error e, store1, ev2)
    | .ok history_context =>
      let full_message := "Conversation so far:\n" ++ history_context
        ++ "\n" ++ "User: " ++ message ++ "\nAssistant:"
      if containsSub (pyLower message) "who are you" then
        afterReply store1 ev2 session_id user_id IDENTITY_RESPONSE
      else
        let d := multi_agent_orchestrator collab store1 full_message (some user_id)
        match d.1 with
        | .error e => (.error e, store1, ev2 ++ d.2)
        | .ok agent_reply =>
          afterReply store1 (ev2 ++ d.2) session_id user_id agent_reply

/-- `fact_check.py` / `chat_agent` (lines 34–90): the catch-all
`except Exception` turns *any* raised error — including the
`HTTPException(400)` of the empty-message check — into an
HTTP 500 response. -/
def chat_agent (collab : Collab) (store : Store) (body : RequestBody)
    (freshUuid : String) : ChatResult × Store × List Event :=
  let b := chat_agent_body collab store body freshUuid
  match b.1 with
  | .ok resp => (.ok resp, b.2.1, b.2.2)
  | .error _ =>
    (.httpError 500 "Internal server error. Please try again.", b.2.1, b.2.2)

/-- Did the endpoint answer normally? -/
def ChatResult.isOk : ChatResult → Bool
  | .ok _ => true
  | .httpError _ _ => false

/-- Number of agent-role append operations in a trace. -/
def countAgentAppends (evs : List Event) : Nat :=
  evs.countP (fun e =>
    match e with
    | .storeAppend _ role _ _ => role == "agent"
    | _ => false)

/-- Number of append operations (any role) in a trace. -/
def countAppends (evs : List Event) : Nat :=
  evs.countP (fun e =>
    match e with
    | .storeAppend _ _ _ _ => true
    | _ => false)

/-- Is there a generation call in a trace? -/
def hasGeminiCall (evs : List Event) : Bool :=
  evs.any (fun e =>
    match e with
    | .geminiCall _ => true
    | _ => false)

/-- Number of agent-role rows in a store row list. -/
def countAgentRows (rows : List Row) : Nat :=
  rows.countP (fun r => r.role == "agent")

/-- A concrete collaborator world: generation raises a transport error,
the lookup finds nothing, every tool answers. -/
def demoCollab : Collab where
  gemini := fun _ => .raised
  twitter := fun _ _ => []
  tool := fun _ _ => some "tool output"

deriving instance DecidableEq for Except

/-- A well-formed generation response whose extracted text field is
whitespace-only (so it strips to the empty string). -/
def emptyTextBody : Json :=
  Json.obj [("candidates", Json.arr [Json.obj [("content",
    Json.obj [("parts", Json.arr [Json.obj [("text", Json.str "   ")]])])]])]

/-- A 200-status body whose `candidates` list is empty, so the `[0]`
index raises. -/
def noCandidatesBody : Json := Json.obj [("candidates", Json.arr [])]

/-- Trace has no append events at all. -/
def noAppends (evs : List Event) : Bool :=
  evs.all (fun e =>
    match e with
    | .storeAppend _ _ _ _ => false
    | _ => true)

/-- Every append event in the trace reported failure. -/
def noSuccessfulAppend (evs : List Event) : Bool :=
  evs.all (fun e =>
    match e with
    | .storeAppend _ _ _ ok => !ok
    | _ => true)

theorem countAgentAppends_append (a b : List Event) :
    countAgentAppends (a ++ b) = countAgentAppends a + countAgentAppends b :=
  List.countP_append _ _ _

theorem gemini_status_err (k : Nat) (body : Option Json) :
    call_gemini_api (.response (400 + k) body) = SENSITIVE_FALLBACK := by
  simp only [call_gemini_api]
  rw [if_pos (Nat.le_add_right 400 k)]

theorem gemini_body_none (status : Nat) :
    call_gemini_api (.response status none) = SENSITIVE_FALLBACK := by
  simp only [call_gemini_api]
  by_cases h : 400 ≤ status
  · rw [if_pos h]
  · rw [if_neg h]

theorem gemini_ne_empty (u : GeminiUpstream) : call_gemini_api u ≠ "" := by
  cases u with
  | raised => decide
  | timedOut => decide
  | response status body =>
    simp only [call_gemini_api]
    by_cases h : 400 ≤ status
    · rw [if_pos h]; decide
    · rw [if_neg h]
      cases body with
      | none => decide
      | some data =>
        cases hx : extractText data with
        | error e => simp only [hx]; decide
        | ok text =>
          simp only [hx]
          by_cases ht : text = ""
          · rw [if_pos ht]; decide
          · rw [if_neg ht]; exact ht

theorem dispatch_noAppends (collab : Collab) (lm um : String) :
    noAppends (orchestratorDispatch collab lm um).2 = true := by
  unfold orchestratorDispatch
  by_cases h1 : anyKeyword GREETING_KEYWORDS lm = true
  · simp only [if_pos h1]; rfl
  simp only [if_neg h1]
  by_cases h2 : anyKeyword IDENTITY_KEYWORDS lm = true
  · simp only [if_pos h2]; rfl
  simp only [if_neg h2]
  by_cases h3 : anyKeyword NEWS_EVENT_KEYWORDS lm = true
  · simp only [if_pos h3]; rfl
  simp only [if_neg h3]
  by_cases h4 : anyKeyword SUMMARIZE_KEYWORDS lm = true
  · simp only [if_pos h4]; rfl
  simp only [if_neg h4]
  by_cases h5 : anyKeyword FACTCHECK_KEYWORDS lm = true
  · simp only [if_pos h5]; rfl
  simp only [if_neg h5]
  by_cases h6 : anyKeyword BIAS_KEYWORDS lm = true
  · simp only [if_pos h6]; rfl
  simp only [if_neg h6]
  by_cases h7 : anyKeyword EXTRACT_KEYWORDS lm = true
  · simp only [if_pos h7]; rfl
  simp only [if_neg h7]
  by_cases h8 : anyKeyword STAT_KEYWORDS lm = true
  · simp only [if_pos h8]; rfl
  simp only [if_neg h8]
  by_cases h9 : anyKeyword REPORT_KEYWORDS lm = true
  · simp only [if_pos h9]
    cases collab.tool "summarize_news" [um] with
    | none => rfl
    | some summary =>
      cases collab.tool "fact_checker" [um] with
      | none => rfl
      | some verdict =>
        cases collab.tool "extract_keywords" [um] with
        | none => rfl
        | some keywords => rfl
  simp only [if_neg h9]
  by_cases h10 : anyKeyword SOCIAL_KEYWORDS lm = true
  · simp only [if_pos h10]; rfl
  simp only [if_neg h10]
  by_cases h11 : anyKeyword PERSONAL_DATA_KEYWORDS lm = true
  · simp only [if_pos h11]; rfl
  simp only [if_neg h11]
  rfl

theorem noAppends_countAgent {evs : List Event} (h : noAppends evs = true) :
    countAgentAppends evs = 0 := by
  rw [countAgentAppends, List.countP_eq_zero]
  intro a ha
  have := List.all_eq_true.mp h a ha
  intro hc
  cases a <;> simp_all

theorem noAppends_noSuccessful {evs : List Event} (h : noAppends evs = true) :
    noSuccessfulAppend evs = true := by
  rw [noSuccessfulAppend, List.all_eq_true]
  intro a ha
  have := List.all_eq_true.mp h a ha
  cases a <;> simp_all

theorem orch_noAppends (collab : Collab) (store : Store) (um : String)
    (uid : Option String) :
    noAppends (multi_agent_orchestrator collab store um uid).2 = true := by
  unfold multi_agent_orchestrator
  by_cases ht : truthyOpt uid = true
  · simp only [if_pos ht]
    by_cases he : (get_chat_history store (uid.getD "") 50).isEmpty = true
    · simp only [if_pos he]
      rw [noAppends, List.all_append]
      simp only [Bool.and_eq_true]
      exact ⟨rfl, dispatch_noAppends collab _ _⟩
    · simp only [if_neg he]
      cases hf : memoryFold (get_chat_history store (uid.getD "") 50) with
      | error e => rfl
      | ok memory_text =>
        simp only
        rw [noAppends, List.all_append]
        simp only [Bool.and_eq_true]
        exact ⟨rfl, dispatch_noAppends collab _ _⟩
  · simp only [if_neg ht]
    exact dispatch_noAppends collab _ _

theorem body_ok_appends (collab : Collab) (store : Store) (body : RequestBody)
    (uuid : String) (resp : ChatResponse) (s : Store) (evs : List Event)
    (h : chat_agent_body collab store body uuid = (.ok resp, s, evs)) :
    countAgentAppends evs = 1 := by
  unfold chat_agent_body at h
  simp only [] at h
  split at h
  · simp at h
  · split at h
    · simp at h
    · split at h
      · unfold afterReply at h
        simp only [] at h
        injection h with h1 h2
        injection h2 with h2a h2b
        subst h2b
        rw [countAgentAppends_append]
        rfl
      · split at h
        · simp at h
        · unfold afterReply at h
          simp only [] at h
          injection h with h1 h2
          injection h2 with h2a h2b
          subst h2b
          rw [countAgentAppends_append, countAgentAppends_append]
          rw [noAppends_countAgent (orch_noAppends collab _ _ _)]
          rfl

theorem body_ok_rows (collab : Collab) (store : Store) (body : RequestBody)
    (uuid : String) (resp : ChatResponse) (s : Store) (evs : List Event)
    (h : chat_agent_body collab store body uuid = (.ok resp, s, evs))
    (hw : store.writesOk = true) :
    countAgentRows s.rows = countAgentRows store.rows + 1 := by
  unfold chat_agent_body at h
  simp only [] at h
  split at h
  · simp at h
  · split at h
    · simp at h
    · split at h
      · unfold afterReply at h
        simp only [] at h
        injection h with h1 h2
        injection h2 with h2a h2b
        subst h2a
        simp [save_chat_message, hw, countAgentRows, List.countP_append]
      · split at h
        · simp at h
        · unfold afterReply at h
          simp only [] at h
          injection h with h1 h2
          injection h2 with h2a h2b
          subst h2a
          simp [save_chat_message, hw, countAgentRows, List.countP_append]

theorem body_writes_down (collab : Collab) (store : Store) (body : RequestBody)
    (uuid : String) (r : Except PyError ChatResponse) (s : Store)
    (evs : List Event)
    (h : chat_agent_body collab store body uuid = (r, s, evs))
    (hw : store.writesOk = false) :
    s = store ∧ noSuccessfulAppend evs = true := by
  unfold chat_agent_body at h
  simp only [] at h
  split at h
  · injection h with h1 h2
    injection h2 with h2a h2b
    subst h2a; subst h2b
    exact ⟨rfl, rfl⟩
  · split at h
    · injection h with h1 h2
      injection h2 with h2a h2b
      subst h2a; subst h2b
      constructor
      · simp [save_chat_message, hw]
      · simp [save_chat_message, hw, noSuccessfulAppend]
    · split at h
      · unfold afterReply at h
        simp only [] at h
        injection h with h1 h2
        injection h2 with h2a h2b
        subst h2a; subst h2b
        constructor
        · simp [save_chat_message, hw]
        · simp [save_chat_message, hw, noSuccessfulAppend]
      · split at h
        · injection h with h1 h2
          injection h2 with h2a h2b
          subst h2a; subst h2b
          refine ⟨by simp [save_chat_message, hw], ?_⟩
          rw [noSuccessfulAppend, List.all_append, Bool.and_eq_true]
          constructor
          · simp [save_chat_message, hw, noSuccessfulAppend]
          · exact noAppends_noSuccessful (orch_noAppends _ _ _ _)
        · unfold afterReply at h
          simp only [] at h
          injection h with h1 h2
          injection h2 with h2a h2b
          subst h2a; subst h2b
          refine ⟨by simp [save_chat_message, hw], ?_⟩
          rw [noSuccessfulAppend, List.all_append, Bool.and_eq_true]
          constructor
          · rw [List.all_append, Bool.and_eq_true]
            constructor
            · simp [save_chat_message, hw, noSuccessfulAppend]
            · exact noAppends_noSuccessful (orch_noAppends _ _ _ _)
          · simp [save_chat_message, hw, noSuccessfulAppend]

theorem mem_insertDesc {r x : Row} :
    ∀ {l : List Row}, x ∈ insertDesc r l → x = r ∨ x ∈ l := by
  intro l
  induction l with
  | nil => intro h; simp [insertDesc] at h; exact Or.inl h
  | cons y ys ih =>
    intro h
    unfold insertDesc at h
    by_cases hc : y.created_at ≤ r.created_at
    · rw [if_pos hc] at h
      rcases List.mem_cons.mp h with h1 | h1
      · exact Or.inl h1
      · exact Or.inr h1
    · rw [if_neg hc] at h
      rcases List.mem_cons.mp h with h1 | h1
      · subst h1; exact Or.inr (List.mem_cons_self _ _)
      · rcases ih h1 with h2 | h2
        · exact Or.inl h2
        · exact Or.inr (List.mem_cons_of_mem _ h2)

theorem pairwise_insertDesc {r : Row} :
    ∀ {l : List Row}, l.Pairwise (fun a b => b.created_at ≤ a.created_at) →
      (insertDesc r l).Pairwise (fun a b => b.created_at ≤ a.created_at) := by
  intro l
  induction l with
  | nil => intro _; simp [insertDesc]
  | cons y ys ih =>
    intro h
    rcases List.pairwise_cons.mp h with ⟨hy, hys⟩
    unfold insertDesc
    by_cases hc : y.created_at ≤ r.created_at
    · rw [if_pos hc]
      refine List.pairwise_cons.mpr ⟨?_, h⟩
      intro b hb
      rcases List.mem_cons.mp hb with rfl | hb'
      · exact hc
      · exact Nat.le_trans (hy b hb') hc
    · rw [if_neg hc]
      refine List.pairwise_cons.mpr ⟨?_, ih hys⟩
      intro b hb
      rcases mem_insertDesc hb with rfl | hb'
      · exact Nat.le_of_lt (Nat.lt_of_not_le hc)
      · exact hy b hb'

theorem pairwise_sortDesc (l : List Row) :
    (sortDesc l).Pairwise (fun a b => b.created_at ≤ a.created_at) := by
  induction l with
  | nil => simp [sortDesc]
  | cons x xs ih => exact pairwise_insertDesc ih

theorem str_infix_append_left (s t : String) : t.data <:+: (s ++ t).data := by
  rw [String.data_append]
  exact (List.suffix_append _ _).isInfix

theorem str_infix_extend_right {l : List Char} (s t : String)
    (h : l <:+: s.data) : l <:+: (s ++ t).data := by
  rw [String.data_append]
  exact h.trans (List.prefix_append _ _).isInfix

theorem mem_joinSep_infix (sep : String) :
    ∀ (l : List String), ∀ a ∈ l, a.data <:+: (joinSep sep l).data := by
  intro l
  induction l with
  | nil => intro a ha; cases ha
  | cons x xs ih =>
    intro a ha
    cases xs with
    | nil =>
      rcases List.mem_cons.mp ha with rfl | h
      · exact List.infix_refl _
      · cases h
    | cons y ys =>
      rcases List.mem_cons.mp ha with rfl | h
      · show a.data <:+: ((a ++ sep) ++ joinSep sep (y :: ys)).data
        refine str_infix_extend_right _ _ ?_
        rw [String.data_append]
        exact (List.prefix_append _ _).isInfix
      · show a.data <:+: ((x ++ sep) ++ joinSep sep (y :: ys)).data
        exact (ih a h).trans (str_infix_append_left _ _)

/-- Claim C1, counterexample.  A live-event message, a lookup returning
one post, and a generation response that strips to empty (so the
gateway returns the "couldn't process" failure string): the agent's
returned text is exactly that failure string and does not contain the
retrieved post text — there is no raw-posts fallback in
`news_event_agent`. -/
theorem C1_live_event_no_raw_posts_fallback_cex :
    classify "any breaking news today" = .liveEvent ∧
    1 ≤ ([⟨"alice", "MOONBASE"⟩] : List Tweet).length ∧
    news_event_agent (fun _ _ => [⟨"alice", "MOONBASE"⟩])
        (fun _ => .response 200 (some emptyTextBody)) "any breaking news today" =
      EMPTY_TEXT_FALLBACK ∧
    containsSub EMPTY_TEXT_FALLBACK "couldn\x27t process" = true ∧
    containsSub EMPTY_TEXT_FALLBACK "MOONBASE" = false :=
  ⟨by decide, by decide, by decide, by decide, by decide⟩

/-- Claim C1, amended.  The live-event agent returns the Generation
Gateway's output unchanged — even when it is the failure message — and
the retrieved post texts appear verbatim only in the prompt sent to
generation, never as a fallback reply. -/
theorem C1_live_event_agent_returns_gateway_output :
    ∀ (search : String → Nat → List Tweet) (gemini : String → GeminiUpstream)
      (msg : String),
      news_event_agent search gemini msg =
        call_gemini_api (gemini (newsEventPrompt msg (search msg 10))) ∧
      ∀ t ∈ search msg 10,
        containsSub (newsEventPrompt msg (search msg 10)) t.text = true := by
  intro search gemini msg
  refine ⟨rfl, ?_⟩
  intro t ht
  have hne : (search msg 10).isEmpty = false := by
    cases hs : search msg 10 with
    | nil => rw [hs] at ht; cases ht
    | cons a l => rfl
  have h1 : t.text.data <:+:
      ("Tweet by @" ++ t.author_username ++ ": " ++ t.text).data :=
    str_infix_append_left _ _
  have h2 := mem_joinSep_infix "\n\n"
    ((search msg 10).map
      (fun t => "Tweet by @" ++ t.author_username ++ ": " ++ t.text))
    _ (List.mem_map_of_mem _ ht)
  have hctx : t.text.data <:+: (twitterContext (search msg 10)).data := by
    unfold twitterContext
    rw [hne]
    simp only [Bool.false_eq_true, if_false]
    exact h1.trans h2
  show containsSub (newsEventPrompt msg (search msg 10)) t.text = true
  unfold containsSub
  apply decide_eq_true
  unfold newsEventPrompt
  exact str_infix_extend_right _ _ (str_infix_extend_right _ _
    (hctx.trans (str_infix_append_left _ _)))

/-- Witness for C1's amended theorem at a concrete lookup result. -/
theorem C1_live_event_agent_prompt_witness :
    containsSub (newsEventPrompt "any breaking news today"
      [⟨"alice", "MOONBASE"⟩]) "MOONBASE" = true := by
  have h := (C1_live_event_agent_returns_gateway_output
    (fun _ _ => [⟨"alice", "MOONBASE"⟩]) (fun _ => .raised)
    "any breaking news today").2 ⟨"alice", "MOONBASE"⟩ (by simp)
  exact h

/-- Claim C2.  The Generation Gateway is a total function of the
upstream outcome (the bare `except` absorbs every raised error) and
always returns a non-empty string: transport errors, timeouts, error
statuses (`400 + k`), malformed bodies (undecodable, or an empty
`candidates` list) all yield the generic fallback, and an empty
extracted text field yields the non-empty "couldn't process"
fallback. -/
theorem C2_generation_gateway_never_raises_nonempty :
    (∀ u, call_gemini_api u ≠ "") ∧
    call_gemini_api .raised = SENSITIVE_FALLBACK ∧
    call_gemini_api .timedOut = SENSITIVE_FALLBACK ∧
    (∀ status, call_gemini_api (.response status none) = SENSITIVE_FALLBACK) ∧
    (∀ k body, call_gemini_api (.response (400 + k) body) = SENSITIVE_FALLBACK) ∧
    call_gemini_api (.response 200 (some noCandidatesBody)) =
      SENSITIVE_FALLBACK ∧
    call_gemini_api (.response 200 (some emptyTextBody)) =
      EMPTY_TEXT_FALLBACK :=
  ⟨gemini_ne_empty, rfl, rfl, gemini_body_none, gemini_status_err,
   by decide, by decide⟩

/-- Claim C3, counterexample.  A whitespace-only message (`" "`, which
sanitization leaves whitespace-only) is *not* rejected: the endpoint
performs a store write and a store read for it, contradicting the claim
that whitespace-only messages are rejected before any external
collaborator is invoked. -/
theorem C3_whitespace_only_reaches_collaborators_cex :
    sanitize_input " " = " " ∧ pyStrip " " = "" ∧
    (chat_agent demoCollab ⟨[], true, true, 0⟩
        ⟨some " ", none, none⟩ "sess-1").2.2 =
      [.storeAppend "sess-1" "user" " " true, .storeFetch "sess-1" 50] :=
  ⟨by decide, by decide, by decide⟩

/-- Claim C3, amended.  Only messages that are *empty* after
sanitization are rejected before any external collaborator: for those
the event trace is empty, the store is untouched, and the request
fails; whitespace-only messages are processed like any other
message. -/
theorem C3_only_empty_message_rejected_before_collaborators :
    ∀ (collab : Collab) (store : Store) (body : RequestBody) (uuid : String),
      sanitize_input (body.message.getD "") = "" →
      (chat_agent collab store body uuid).2.2 = [] ∧
      (chat_agent collab store body uuid).2.1 = store ∧
      (chat_agent collab store body uuid).1.isOk = false := by
  intro collab store body uuid h
  have hb : chat_agent_body collab store body uuid =
      (.error (.httpException 400 "Message cannot be empty."), store, []) := by
    unfold chat_agent_body
    simp only [h, if_pos]
  unfold chat_agent
  rw [hb]
  exact ⟨rfl, rfl, rfl⟩

/-- Witness for C3's amended theorem: `"<>"` sanitizes to the empty
string and is rejected with no collaborator calls. -/
theorem C3_only_empty_message_rejected_witness :
    (chat_agent demoCollab ⟨[], true, true, 0⟩
        ⟨some "<>", none, none⟩ "s1").2.2 = [] ∧
    (chat_agent demoCollab ⟨[], true, true, 0⟩
        ⟨some "<>", none, none⟩ "s1").2.1 = ⟨[], true, true, 0⟩ ∧
    (chat_agent demoCollab ⟨[], true, true, 0⟩
        ⟨some "<>", none, none⟩ "s1").1.isOk = false :=
  C3_only_empty_message_rejected_before_collaborators demoCollab
    ⟨[], true, true, 0⟩ ⟨some "<>", none, none⟩ "s1" (by decide)

/-- Claim C4.  The intent router is total (`classify` is a function
into the closed `Intent` type) and agrees, for every message, with the
spec-side router that scans the fixed priority order greeting →
identity-query → live-event → summarize → fact-check → sentiment/bias →
keyword-extraction → statistic-verification → report → social-lookup →
personal-data-query and defaults to `general`: the first matching
category in that order wins. -/
theorem C4_intent_router_total_priority_order :
    ∀ (message : String), classify message = classify_spec message := by
  intro message
  unfold classify classify_spec PRIORITY_ORDER
  simp only [List.find?, intentKeywords]
  cases h1 : anyKeyword GREETING_KEYWORDS (pyLower message) <;> simp only [h1]
  cases h2 : anyKeyword IDENTITY_KEYWORDS (pyLower message) <;> simp only [h2]
  cases h3 : anyKeyword NEWS_EVENT_KEYWORDS (pyLower message) <;> simp only [h3]
  cases h4 : anyKeyword SUMMARIZE_KEYWORDS (pyLower message) <;> simp only [h4]
  cases h5 : anyKeyword FACTCHECK_KEYWORDS (pyLower message) <;> simp only [h5]
  cases h6 : anyKeyword BIAS_KEYWORDS (pyLower message) <;> simp only [h6]
  cases h7 : anyKeyword EXTRACT_KEYWORDS (pyLower message) <;> simp only [h7]
  cases h8 : anyKeyword STAT_KEYWORDS (pyLower message) <;> simp only [h8]
  cases h9 : anyKeyword REPORT_KEYWORDS (pyLower message) <;> simp only [h9]
  cases h10 : anyKeyword SOCIAL_KEYWORDS (pyLower message) <;> simp only [h10]
  cases h11 : anyKeyword PERSONAL_DATA_KEYWORDS (pyLower message) <;>
    simp only [h11]
  all_goals simp

/-- Claim C5.  Every endpoint invocation that answers normally issues
exactly one agent-role append to the conversation store (and, when the
store accepts writes, exactly one agent-role row is added); when input
validation rejects the message, no collaborator call happens at all and
the store is unchanged. -/
theorem C5_success_appends_exactly_one_agent_turn :
    ∀ (collab : Collab) (store : Store) (body : RequestBody) (uuid : String),
      ((chat_agent collab store body uuid).1.isOk = true →
        countAgentAppends (chat_agent collab store body uuid).2.2 = 1 ∧
        (store.writesOk = true →
          countAgentRows (chat_agent collab store body uuid).2.1.rows =
            countAgentRows store.rows + 1)) ∧
      (sanitize_input (body.message.getD "") = "" →
        (chat_agent collab store body uuid).2.2 = [] ∧
        (chat_agent collab store body uuid).2.1 = store) := by
  intro collab store body uuid
  constructor
  · intro hok
    rcases hb : chat_agent_body collab store body uuid with ⟨r, s, evs⟩
    cases r with
    | error e =>
      unfold chat_agent at hok
      simp only [hb] at hok
      simp [ChatResult.isOk] at hok
    | ok resp =>
      have h1 := body_ok_appends collab store body uuid resp s evs hb
      have h2 := body_ok_rows collab store body uuid resp s evs hb
      unfold chat_agent
      simp only [hb]
      exact ⟨h1, h2⟩
  · intro hm
    have hb : chat_agent_body collab store body uuid =
        (.error (.httpException 400 "Message cannot be empty."), store, []) := by
      unfold chat_agent_body
      simp only [hm, if_pos]
    unfold chat_agent
    simp only [hb]
    exact ⟨trivial, trivial⟩

/-- Witness for C5 at a concrete successful run and a concrete rejected
run. -/
theorem C5_success_appends_witness :
    countAgentAppends (chat_agent demoCollab ⟨[], true, false, 0⟩
      ⟨some "tell me more", none, some "u1"⟩ "s1").2.2 = 1 ∧
    (chat_agent demoCollab ⟨[], true, true, 0⟩
      ⟨some "<>", none, some "u1"⟩ "s1").2.2 = [] := by
  constructor
  · exact ((C5_success_appends_exactly_one_agent_turn demoCollab
      ⟨[], true, false, 0⟩ ⟨some "tell me more", none, some "u1"⟩ "s1").1
      (by decide)).1
  · exact ((C5_success_appends_exactly_one_agent_turn demoCollab
      ⟨[], true, true, 0⟩ ⟨some "<>", none, some "u1"⟩ "s1").2
      (by decide)).1

/-- Claim C6, code bug.  With a fully working store, two sequential
calls for the same user both fail with HTTP 500 and never reach the
generation service, because the history-folding loop reads row key
`message` while the writer stores the text under `content`
(`chat_history` schema: `id, user_id, role, content, created_at`), so
the loop raises `KeyError` on any non-empty history.  In particular the
prompt of the second call cannot contain the first call's message — the
context folding the spec describes never happens. -/
theorem C6_history_content_key_code_bug :
    (chat_agent demoCollab ⟨[], true, true, 0⟩
        ⟨some "tell me a story", none, some "u1"⟩ "s1").1 =
      .httpError 500 "Internal server error. Please try again." ∧
    (chat_agent demoCollab
        (chat_agent demoCollab ⟨[], true, true, 0⟩
          ⟨some "tell me a story", none, some "u1"⟩ "s1").2.1
        ⟨some "what did I just say?", none, some "u1"⟩ "s2").1 =
      .httpError 500 "Internal server error. Please try again." ∧
    hasGeminiCall (chat_agent demoCollab
        (chat_agent demoCollab ⟨[], true, true, 0⟩
          ⟨some "tell me a story", none, some "u1"⟩ "s1").2.1
        ⟨some "what did I just say?", none, some "u1"⟩ "s2").2.2 = false ∧
    dictGet (Row.mk "u1" "user" "tell me a story" 0).toDict "message" =
      .error .keyError ∧
    dictGet (Row.mk "u1" "user" "tell me a story" 0).toDict "content" =
      .ok "tell me a story" :=
  ⟨by decide, by decide, by decide, by decide, by decide⟩

/-- Claim C7.  The history retrieval is chronological and never raises:
its result is sorted by `created_at` ascending for every store state
(whatever the row order held by the store), a store whose reads fail
yields `[]`, and a store holding rows of other users only yields
`[]`. -/
theorem C7_history_chronological_and_errorless :
    ∀ (store : Store) (uid : String) (limit : Nat),
      (get_chat_history store uid limit).Pairwise
        (fun a b => a.created_at ≤ b.created_at) ∧
      (store.readsOk = false → get_chat_history store uid limit = []) ∧
      (store.rows.all (fun r => !(r.user_id == uid)) = true →
        get_chat_history store uid limit = []) := by
  intro store uid limit
  refine ⟨?_, ?_, ?_⟩
  · unfold get_chat_history supabase_select
    cases h : store.readsOk
    · simp [h]
    · simp only [h, if_true]
      rw [List.pairwise_reverse]
      exact List.Pairwise.sublist (List.take_sublist _ _) (pairwise_sortDesc _)
  · intro h
    unfold get_chat_history supabase_select
    simp [h]
  · intro h
    unfold get_chat_history supabase_select
    cases hr : store.readsOk
    · simp [hr]
    · simp only [hr, if_true]
      have hf : store.rows.filter (fun r => r.user_id == uid) = [] := by
        rw [List.filter_eq_nil_iff]
        intro a ha
        have := List.all_eq_true.mp h a ha
        simpa using this
      simp [hf, sortDesc]

/-- Witness for C7: an out-of-order store is returned chronologically,
a read-failing store yields `[]`, and an unknown user yields `[]`. -/
theorem C7_history_witness :
    (get_chat_history ⟨[⟨"u", "agent", "b", 5⟩, ⟨"u", "user", "a", 3⟩],
        true, true, 9⟩ "u" 50).Pairwise
      (fun a b => a.created_at ≤ b.created_at) ∧
    get_chat_history ⟨[⟨"u", "user", "a", 3⟩], true, false, 9⟩ "u" 50 = [] ∧
    get_chat_history ⟨[⟨"v", "user", "x", 1⟩], true, true, 2⟩ "u" 50 = [] :=
  ⟨(C7_history_chronological_and_errorless _ "u" 50).1,
   (C7_history_chronological_and_errorless _ "u" 50).2.1 rfl,
   (C7_history_chronological_and_errorless _ "u" 50).2.2 (by decide)⟩

/-- Claim C8.  A failed append reports failure by returning `false`
(the adapter is a total function, so it never raises) and leaves the
store unchanged; the endpoint ignores the append result, so with a
store that rejects writes every append event in the trace carries
`false`, the store stays unchanged, and — as the concrete run shows —
the caller still receives the generated reply. -/
theorem C8_failed_append_does_not_abort_reply :
    (∀ (store : Store) (uid role msg : String), store.writesOk = false →
      save_chat_message store uid role msg = (false, store)) ∧
    (∀ (collab : Collab) (store : Store) (body : RequestBody) (uuid : String),
      store.writesOk = false →
      (chat_agent collab store body uuid).2.1 = store ∧
      noSuccessfulAppend (chat_agent collab store body uuid).2.2 = true) ∧
    (chat_agent demoCollab ⟨[], false, false, 0⟩
        ⟨some "tell me more", none, some "u1"⟩ "s1").1 =
      .ok ⟨SENSITIVE_FALLBACK, "s1", [], 0⟩ ∧
    countAppends (chat_agent demoCollab ⟨[], false, false, 0⟩
        ⟨some "tell me more", none, some "u1"⟩ "s1").2.2 = 2 := by
  refine ⟨?_, ?_, by decide, by decide⟩
  · intro store uid role msg hw
    simp [save_chat_message, hw]
  · intro collab store body uuid hw
    rcases hb : chat_agent_body collab store body uuid with ⟨r, s, evs⟩
    have hd := body_writes_down collab store body uuid r s evs hb hw
    unfold chat_agent
    simp only [hb]
    cases r with
    | error e => exact hd
    | ok resp => exact hd

/-- Witness for C8 at a write-rejecting store. -/
theorem C8_failed_append_witness :
    save_chat_message ⟨[], false, false, 0⟩ "u1" "agent" "m" =
      (false, ⟨[], false, false, 0⟩) ∧
    noSuccessfulAppend (chat_agent demoCollab ⟨[], false, false, 0⟩
        ⟨some "tell me more", none, some "u1"⟩ "s1").2.2 = true :=
  ⟨C8_failed_append_does_not_abort_reply.1 ⟨[], false, false, 0⟩
      "u1" "agent" "m" rfl,
   (C8_failed_append_does_not_abort_reply.2.1 demoCollab ⟨[], false, false, 0⟩
      ⟨some "tell me more", none, some "u1"⟩ "s1" rfl).2⟩

/-- Claim C9, counterexample.  The gateway returns for a timeout the
very same string as for a transport error, a 500 status, and a
malformed 200 body: there is no timeout-specific fallback distinct from
the generic one. -/
theorem C9_timeout_fallback_not_distinct_cex :
    call_gemini_api .timedOut = call_gemini_api .raised ∧
    call_gemini_api .timedOut = call_gemini_api (.response 500 none) ∧
    call_gemini_api .timedOut = call_gemini_api (.response 200 none) ∧
    call_gemini_api .timedOut = SENSITIVE_FALLBACK :=
  ⟨rfl, by decide, by decide, rfl⟩

/-- Claim C9, amended.  A timeout yields the same generic fallback as
transport errors, error statuses and malformed bodies; the only other
fallback string is the one for an empty extracted text field, and the
two are distinct. -/
theorem C9_timeout_same_generic_fallback :
    call_gemini_api .timedOut = SENSITIVE_FALLBACK ∧
    call_gemini_api .raised = SENSITIVE_FALLBACK ∧
    (∀ k body, call_gemini_api (.response (400 + k) body) = SENSITIVE_FALLBACK) ∧
    (∀ status, call_gemini_api (.response status none) = SENSITIVE_FALLBACK) ∧
    call_gemini_api (.response 200 (some emptyTextBody)) =
      EMPTY_TEXT_FALLBACK ∧
    SENSITIVE_FALLBACK ≠ EMPTY_TEXT_FALLBACK :=
  ⟨rfl, rfl, gemini_status_err, gemini_body_none, by decide, by decide⟩

/-- Claim C10.  When the message is empty after sanitization the inner
handler raises `HTTPException(400)`, but the catch-all `except
Exception` replaces it, so the caller observes HTTP 500 "Internal
server error. Please try again.", not a 400 rejection. -/
theorem C10_empty_message_surfaced_as_500 :
    ∀ (collab : Collab) (store : Store) (body : RequestBody) (uuid : String),
      sanitize_input (body.message.getD "") = "" →
      (chat_agent_body collab store body uuid).1 =
        .error (.httpException 400 "Message cannot be empty.") ∧
      (chat_agent collab store body uuid).1 =
        .httpError 500 "Internal server error. Please try again." := by
  intro collab store body uuid h
  have hb : chat_agent_body collab store body uuid =
      (.error (.httpException 400 "Message cannot be empty."), store, []) := by
    unfold chat_agent_body
    simp only [h, if_pos]
  exact ⟨by rw [hb], by unfold chat_agent; rw [hb]⟩

/-- Witness for C10 at the empty message. -/
theorem C10_empty_message_witness :
    (chat_agent_body demoCollab ⟨[], true, true, 0⟩
        ⟨some "", none, none⟩ "s1").1 =
      .error (.httpException 400 "Message cannot be empty.") ∧
    (chat_agent demoCollab ⟨[], true, true, 0⟩ ⟨some "", none, none⟩ "s1").1 =
      .httpError 500 "Internal server error. Please try again." :=
  C10_empty_message_surfaced_as_500 demoCollab ⟨[], true, true, 0⟩
    ⟨some "", none, none⟩ "s1" (by decide)
